import Mathlib

/-!
Verification of the TestBoom asynchronous task orchestration engine.

Shallow embedding of the task lifecycle manager (`src/api/services/task.py`),
the retry decorator (`src/utils/decorators.py`), the multi-image aggregation
fallback of `ChatManager.analyze_requirement` (`src/ai_core/chat_manager.py`),
and the parameter handling of `TaskManager.create_task`.

Python dictionaries are modelled as insertion-ordered association lists with
string keys; the database-backed task table is an association list keyed by
task id.  Fallible Python code (attribute errors, primary-key violations)
returns `Except`.
-/

set_option autoImplicit false

namespace TestBoom

/-- A value stored in a Python dict (`result` fields are strings or ints). -/
inductive Val where
  | s (v : String)
  | i (n : Int)
  deriving DecidableEq, Repr

/-- Insertion-ordered association list with string keys: the model of a
Python `dict` (for `β = Val`) and of the task table (for `β = TaskRec`). -/
abbrev AList (β : Type) := List (String × β)

namespace AList

variable {β : Type}

/-- Python `k in d` / `d[k]` lookup (first matching key). -/
def get? (m : AList β) (k : String) : Option β :=
  match m with
  | [] => none
  | (k', v) :: rest => if k' = k then some v else get? rest k

/-- Python `d[k] = v`: replace the value in place when the key is present
(dicts keep insertion order), append the pair otherwise. -/
def set (m : AList β) (k : String) (v : β) : AList β :=
  match m with
  | [] => [(k, v)]
  | (k', v') :: rest => if k' = k then (k', v) :: rest else (k', v') :: set rest k v

/-- The keys of the dict, in insertion order. -/
def keys (m : AList β) : List String :=
  m.map Prod.fst

/-- Python `d.update(u)`: merge `u` into `d`, entries of `u` winning. -/
def update (m u : AList β) : AList β :=
  u.foldl (fun acc kv => set acc kv.1 kv.2) m

end AList

/-- A Python dict holding a task's `result` (and `params`). -/
abbrev RMap := AList Val

/-- A row of the task table (`src/api/models/task.py` as used by
`TaskManager`).  `updatedAt` models `updated_at` as an abstract clock value. -/
structure TaskRec where
  type : String
  status : String
  progress : Int
  result : RMap
  error : Option String
  projectName : Val
  moduleName : Val
  updatedAt : Nat
  deriving DecidableEq, Repr

/-- The task table, keyed by task id. -/
abbrev Store := AList TaskRec

/-- Python exceptions surfaced by the embedded code. -/
inductive PyErr where
  | attributeError (msg : String)
  | integrityError (msg : String)
  deriving DecidableEq, Repr

/-- `params.get(k, dflt)` where `params` may be `None`
(`TaskManager.create_task` declares `params: dict = None`).  Calling `.get`
on `None` raises `AttributeError`. -/
def paramsGet (params : Option RMap) (k : String) (dflt : Val) : Except PyErr Val :=
  match params with
  | none => .error (.attributeError "NoneType object has no attribute get")
  | some m => .ok ((AList.get? m k).getD dflt)

/-- `TaskManager.create_task`: allocate a row with status `pending`,
progress `0`, and `result` seeded with a progress message plus the
`project_name` / `module_name` entries of `params` (empty-string default).
The freshly generated `task_id` is passed explicitly (`uuid.uuid4()` in the
source); inserting a duplicate primary key makes the commit raise. -/
def create_task (store : Store) (task_id : String) (task_type : String)
    (params : Option RMap) (now : Nat) : Except PyErr Store :=
  match paramsGet params "project_name" (.s "") with
  | .error e => .error e
  | .ok pn =>
  match paramsGet params "module_name" (.s "") with
  | .error e => .error e
  | .ok mn =>
  if (AList.get? store task_id).isSome then
    .error (.integrityError "UNIQUE constraint failed: tasks.id")
  else
    .ok (store ++ [(task_id,
      { type := task_type
        status := "pending"
        progress := 0
        result := [("progress", .s "任务已创建，等待处理..."),
                   ("project_name", pn), ("module_name", mn)]
        error := none
        projectName := pn
        moduleName := mn
        updatedAt := now })])

/-- `TaskManager.get_task_info`: the stored row, or `none` when unknown. -/
def get_task_info (store : Store) (task_id : String) : Option TaskRec :=
  AList.get? store task_id

/-- `TaskManager.update_task`: look the task up; when found, overwrite each
field whose argument is not `None` (the `result` argument is merged
field-by-field into a copy of the stored dict), refresh `updated_at`, and
commit.  Unknown ids are a no-op.  The stored `result` is typed as a dict
here, matching the `isinstance(task.result, dict)` branch of the source. -/
def update_task (store : Store) (task_id : String) (status : Option String)
    (progress : Option Int) (result : Option RMap) (error : Option String)
    (now : Nat) : Store :=
  match AList.get? store task_id with
  | none => store
  | some t =>
      AList.set store task_id
        { type := t.type
          status := status.getD t.status
          progress := progress.getD t.progress
          result :=
            match result with
            | none => t.result
            | some r => AList.update t.result r
          error :=
            match error with
            | none => t.error
            | some e => some e
          projectName := t.projectName
          moduleName := t.moduleName
          updatedAt := now }

/-- What a scheduled job body does, as observed by the wrapper: return a
value (a dict, for jobs that produce one) or raise with a message. -/
inductive JobOutcome where
  | ok (ret : RMap)
  | err (msg : String)
  deriving DecidableEq, Repr

/-- The argument tuple of one `update_task` call issued by the engine. -/
structure UpdArgs where
  status : Option String
  progress : Option Int
  result : Option RMap
  error : Option String
  deriving DecidableEq, Repr

/-- The `update_task` call opening `TaskManager._run_task`. -/
def runningUpd : UpdArgs :=
  ⟨some "running", some 0, some [("progress", .s "任务开始执行...")], none⟩

/-- The terminal `update_task` call of `_run_task` when the job returns. -/
def completedUpd : UpdArgs :=
  ⟨some "completed", some 100, some [("progress", .s "任务执行完成")], none⟩

/-- The `update_task` call issued for a raised error (`status='failed'`,
`error=str(e)`), both by `_run_task` and by the `wrapped_task` closure. -/
def failedUpd (msg : String) : UpdArgs :=
  ⟨some "failed", none, none, some msg⟩

/-- The sequence of `update_task` calls `TaskManager._run_task` makes: mark
running, run the job, then mark completed (discarding the job's return
value, which `_run_task` only returns to its caller) or, in the `except`
branch, mark failed and re-raise. -/
def run_task_calls (outcome : JobOutcome) : List UpdArgs :=
  runningUpd ::
    match outcome with
    | .ok _ => [completedUpd]
    | .err m => [failedUpd m]

/-- The calls made by the `wrapped_task` closure inside
`TaskManager.run_background_task`: it awaits `_run_task` and, when that
re-raises, issues a second failed update before re-raising into the
background loop. -/
def wrapped_task_calls (outcome : JobOutcome) : List UpdArgs :=
  match outcome with
  | .ok r => run_task_calls (.ok r)
  | .err m => run_task_calls (.err m) ++ [failedUpd m]

/-- Replay a sequence of `update_task` calls against the store. -/
def applyCalls (store : Store) (task_id : String) (calls : List UpdArgs)
    (now : Nat) : Store :=
  calls.foldl
    (fun s c => update_task s task_id c.status c.progress c.result c.error now)
    store

/-- `TaskManager.run_background_task` as a store transformer: the effect on
the task table of scheduling a job whose body has the given outcome. -/
def run_background_task (store : Store) (task_id : String)
    (outcome : JobOutcome) (now : Nat) : Store :=
  applyCalls store task_id (wrapped_task_calls outcome) now

/-- How many of the engine's `update_task` calls pass `status='failed'`. -/
def failedStatusCount (calls : List UpdArgs) : Nat :=
  (calls.filter (fun c => c.status == some "failed")).length

/-!  The retry decorator (`src/utils/decorators.py`, `retry`).

The source loops with a counter: on an exception in the allowlist it
increments `retry_count`, re-raises once `retry_count >= max_retries`, and
otherwise sleeps `current_delay` and multiplies it by `backoff`.  Exceptions
outside the allowlist propagate out of the `try` immediately.  The loop is
embedded structurally over `remaining = max_retries - retry_count - 1`, the
number of sleeps still allowed, which the source decrements by one per
retried failure.  The operation is modelled attempt-indexed; delays are
rationals.  The result carries the outcome, the list of sleep durations in
order, and the number of invocations of the operation. -/

/-- One state of the `while True` loop of `retry`. -/
def retryRun {ε α : Type} (op : Nat → Except ε α) (retryable : ε → Bool)
    (remaining : Nat) (backoff : ℚ) (currentDelay : ℚ) (attempt : Nat) :
    Except ε α × List ℚ × Nat :=
  match op attempt with
  | .ok a => (.ok a, [], 1)
  | .error e =>
    if retryable e then
      match remaining with
      | 0 => (.error e, [], 1)
      | r + 1 =>
        let rest := retryRun op retryable r backoff (currentDelay * backoff) (attempt + 1)
        (rest.1, currentDelay :: rest.2.1, rest.2.2 + 1)
    else (.error e, [], 1)

/-- The decorated call: `retry(max_retries, delay, backoff, exceptions)`
applied to an operation.  `retry_count` starts at `0`, so
`max_retries - 1` sleeps remain before the re-raise. -/
def retryCall {ε α : Type} (op : Nat → Except ε α) (retryable : ε → Bool)
    (maxRetries : Nat) (delay backoff : ℚ) : Except ε α × List ℚ × Nat :=
  retryRun op retryable (maxRetries - 1) backoff delay 0

/-!  The multi-image aggregation step of `ChatManager.analyze_requirement`
(`src/ai_core/chat_manager.py`).

After the raw model response is parsed, a list-shaped response is reduced to
its first element and a dict-shaped response is used directly; the result is
then normalised.  When more than one image was supplied and the summary
prompt rendered, a secondary summarisation chat is attempted: its outcome
is either an exception, an empty response, an unparsable / non-dict
response, or a parsed dict into which the `需求背景` / `关联信息` entries of
the original result are carried when absent.  Every non-dict outcome keeps
the original (first) result. -/

/-- Shape of the parsed primary response. -/
inductive RespShape where
  | list (l : List RMap)
  | dict (m : RMap)
  deriving DecidableEq, Repr

/-- `analyze_requirement` on a list response takes `result[0]` as the base
(and fails on an empty list); a dict response is the base itself. -/
def extractBase : RespShape → Option RMap
  | .list [] => none
  | .list (x :: _) => some x
  | .dict m => some m

/-- Outcome of the secondary summarisation chat. -/
inductive SummaryOutcome where
  | raises
  | noResponse
  | unparsable
  | parsed (m : RMap)
  deriving DecidableEq, Repr

/-- Keys of the original analysis carried into a successful summary when
the summary lacks them. -/
def preservedKeys : List String := ["需求背景", "关联信息"]

/-- Apply the summarisation outcome to the normalised result: a parsed dict
replaces it (after carrying the preserved keys over); an exception, an
empty response or an unparsable response leave it unchanged. -/
def applySummary (normalized : RMap) (o : SummaryOutcome) : RMap :=
  match o with
  | .parsed s =>
      preservedKeys.foldl
        (fun acc k =>
          match AList.get? normalized k, AList.get? acc k with
          | some v, none => AList.set acc k v
          | _, _ => acc)
        s
  | _ => normalized

/-- The tail of `analyze_requirement`: reduce the response to its base
result, and when more than one image path was supplied and the summary
prompt rendered, run the aggregation step over it. -/
def analyzeRequirementTail (imageCount : Nat) (raw : RespShape)
    (promptOk : Bool) (o : SummaryOutcome) : Option RMap :=
  match extractBase raw with
  | none => none
  | some base =>
      if 1 < imageCount ∧ promptOk = true then some (applySummary base o)
      else some base

/-- A task row already in the terminal `completed` state. -/
def doneRec : TaskRec :=
  { type := "generate_cases"
    status := "completed"
    progress := 100
    result := [("progress", .s "任务执行完成"),
               ("project_name", .s "Acme"), ("module_name", .s "")]
    error := none
    projectName := .s "Acme"
    moduleName := .s ""
    updatedAt := 3 }

/-- A freshly created task row (status `pending`). -/
def pendingRec : TaskRec :=
  { type := "generate_cases"
    status := "pending"
    progress := 0
    result := [("progress", .s "任务已创建，等待处理..."),
               ("project_name", .s "Acme"), ("module_name", .s "")]
    error := none
    projectName := .s "Acme"
    moduleName := .s ""
    updatedAt := 0 }

/-! Theorems. -/

namespace AList

variable {β : Type}

theorem get?_set (m : AList β) (k : String) (v : β) (q : String) :
    get? (set m k v) q = if k = q then some v else get? m q := by
  induction m with
  | nil => simp [set, get?]
  | cons hd tl ih =>
    obtain ⟨k', v'⟩ := hd
    by_cases hk : k' = k
    · subst hk
      simp [set, get?]
      by_cases hq : k' = q <;> simp [hq, get?]
    · simp [set, hk, get?]
      by_cases hq : k' = q
      · subst hq
        have : ¬ k = k' := fun h => hk h.symm
        simp [this]
      · simp [hq, ih]

theorem get?_eq_none_of_not_mem (m : AList β) (k : String) (h : k ∉ keys m) :
    get? m k = none := by
  induction m with
  | nil => rfl
  | cons hd tl ih =>
    obtain ⟨k', v'⟩ := hd
    have h1 : k' ≠ k := by
      intro hk
      exact h (by simp [keys, hk])
    have h2 : k ∉ keys tl := by
      intro hk
      exact h (by simp [keys] at hk ⊢; exact Or.inr hk)
    simp [get?, h1, ih h2]

theorem get?_update (m u : AList β) (hu : (keys u).Nodup) (q : String) :
    get? (update m u) q =
      match get? u q with
      | some v => some v
      | none => get? m q := by
  induction u generalizing m with
  | nil => simp [update, get?]
  | cons hd tl ih =>
    obtain ⟨k, v⟩ := hd
    simp [keys] at hu
    have step : update m ((k, v) :: tl) = update (set m k v) tl := by
      simp [update]
    rw [step, ih (set m k v) hu.2]
    by_cases hq : k = q
    · subst hq
      have : get? tl k = none :=
        get?_eq_none_of_not_mem tl k (by
          intro hmem
          simp [keys] at hmem
          obtain ⟨b, hb⟩ := hmem
          exact hu.1 b hb)
      simp [get?, this, get?_set]
    · simp [get?, hq, get?_set, fun h => hq h]

theorem get?_append_fresh (m : AList β) (k : String) (v : β)
    (h : get? m k = none) : get? (m ++ [(k, v)]) k = some v := by
  induction m with
  | nil => simp [get?]
  | cons hd tl ih =>
    obtain ⟨k', v'⟩ := hd
    simp [get?] at h ⊢
    by_cases hk : k' = k
    · simp [hk] at h
    · simp [hk] at h ⊢
      exact ih h

end AList

theorem get?_update_task_self (store : Store) (task_id : String)
    (t : TaskRec) (st : Option String) (pr : Option Int) (res : Option RMap)
    (err : Option String) (now : Nat)
    (h : AList.get? store task_id = some t) :
    AList.get? (update_task store task_id st pr res err now) task_id =
      some
        { type := t.type
          status := st.getD t.status
          progress := pr.getD t.progress
          result :=
            match res with
            | none => t.result
            | some r => AList.update t.result r
          error :=
            match err with
            | none => t.error
            | some e => some e
          projectName := t.projectName
          moduleName := t.moduleName
          updatedAt := now } := by
  simp [update_task, h, AList.get?_set]

/-- C1 (counterexample): a task stored with terminal status `completed` has
its status replaced by a subsequent `update_task` call passing
`status='running'` — the source has no terminal-status guard, refuting the
claim that a terminal status is never replaced. -/
theorem c1_terminal_status_counterexample :
    (AList.get? (update_task [("t1", doneRec)] "t1" (some "running") none none none 4)
        "t1").map TaskRec.status = some "running"
      ∧ doneRec.status = "completed" ∧ ("running" : String) ≠ "completed" := by
  exact ⟨rfl, rfl, by decide⟩

/-- C1 (amended): `update_task` overwrites the stored status with any
supplied non-`None` status value, whatever the prior status (terminal
statuses included): the stored status after the call is exactly the
supplied one. -/
theorem c1_update_task_overwrites_any_status (store : Store) (task_id : String)
    (t : TaskRec) (s : String) (pr : Option Int) (res : Option RMap)
    (err : Option String) (now : Nat)
    (h : AList.get? store task_id = some t) :
    (AList.get? (update_task store task_id (some s) pr res err now) task_id).map
        TaskRec.status = some s := by
  rw [get?_update_task_self store task_id t (some s) pr res err now h]
  rfl

/-- C1 witness: the amended statement at a concrete completed task. -/
theorem c1_update_task_overwrites_any_status_witness :
    (AList.get? (update_task [("t1", doneRec)] "t1" (some "failed") none none none 4)
        "t1").map TaskRec.status = some "failed" :=
  c1_update_task_overwrites_any_status [("t1", doneRec)] "t1" doneRec "failed"
    none none none 4 rfl

/-- C2 (counterexample): a job scheduled through `run_background_task` that
returns the dict `{"cases_count": 5}` leaves the task `completed`, but the
returned field is absent from the stored result — the wrapper discards the
job's return value, refuting the claim that it is merged into `result`. -/
theorem c2_return_value_discarded_counterexample :
    (AList.get? (run_background_task [("t1", pendingRec)] "t1"
          (.ok [("cases_count", .i 5)]) 9) "t1").map
        (fun r => (r.status, AList.get? r.result "cases_count"))
      = some ("completed", none) := by
  decide

/-- C2 (amended): for a job whose body returns normally,
`run_background_task` transitions the task to `completed` with progress
`100` and merges only the fixed progress messages of `_run_task` into the
stored result; the job's return value does not appear in the stored row
(the right-hand side does not mention `ret`). -/
theorem c2_run_background_task_ok (store : Store) (task_id : String)
    (t : TaskRec) (ret : RMap) (now : Nat)
    (h : AList.get? store task_id = some t) :
    AList.get? (run_background_task store task_id (.ok ret) now) task_id =
      some
        { type := t.type
          status := "completed"
          progress := 100
          result := AList.update
              (AList.update t.result [("progress", .s "任务开始执行...")])
              [("progress", .s "任务执行完成")]
          error := t.error
          projectName := t.projectName
          moduleName := t.moduleName
          updatedAt := now } := by
  have h1 := get?_update_task_self store task_id t (some "running") (some 0)
    (some [("progress", .s "任务开始执行...")]) none now h
  have h2 := get?_update_task_self _ task_id _ (some "completed") (some 100)
    (some [("progress", .s "任务执行完成")]) none now h1
  simpa [run_background_task, wrapped_task_calls, run_task_calls, applyCalls,
    runningUpd, completedUpd] using h2

/-- C2 witness: the amended statement at a concrete pending task. -/
theorem c2_run_background_task_ok_witness :
    AList.get? (run_background_task [("t1", pendingRec)] "t1"
        (.ok [("cases_count", .i 5)]) 9) "t1" =
      some
        { type := pendingRec.type
          status := "completed"
          progress := 100
          result := AList.update
              (AList.update pendingRec.result [("progress", .s "任务开始执行...")])
              [("progress", .s "任务执行完成")]
          error := pendingRec.error
          projectName := pendingRec.projectName
          moduleName := pendingRec.moduleName
          updatedAt := 9 } :=
  c2_run_background_task_ok [("t1", pendingRec)] "t1" pendingRec
    [("cases_count", .i 5)] 9 rfl

/-- C3 (counterexample): for a job that raises, the engine issues the
failed-status update twice — once in `_run_task`'s handler and once in the
`wrapped_task` closure — refuting the claim that `update_task` is invoked
with `status='failed'` exactly once; the task still ends `failed`. -/
theorem c3_failed_update_twice_counterexample :
    failedStatusCount (wrapped_task_calls (.err "AI处理失败: 测试")) = 2
      ∧ (AList.get? (run_background_task [("t1", pendingRec)] "t1"
            (.err "AI处理失败: 测试") 9) "t1").map TaskRec.status = some "failed" := by
  exact ⟨rfl, rfl⟩

/-- C3 (amended): for a job that raises with message `m`, the task ends
with status `failed` and `error = m` (non-empty whenever `m` is), and the
engine invokes `update_task` with `status='failed'` exactly twice for that
job. -/
theorem c3_run_background_task_err (store : Store) (task_id : String)
    (t : TaskRec) (m : String) (now : Nat)
    (h : AList.get? store task_id = some t) :
    AList.get? (run_background_task store task_id (.err m) now) task_id =
        some
          { type := t.type
            status := "failed"
            progress := 0
            result := AList.update t.result [("progress", .s "任务开始执行...")]
            error := some m
            projectName := t.projectName
            moduleName := t.moduleName
            updatedAt := now }
      ∧ failedStatusCount (wrapped_task_calls (.err m)) = 2 := by
  constructor
  · have h1 := get?_update_task_self store task_id t (some "running") (some 0)
      (some [("progress", .s "任务开始执行...")]) none now h
    have h2 := get?_update_task_self _ task_id _ (some "failed") none none
      (some m) now h1
    have h3 := get?_update_task_self _ task_id _ (some "failed") none none
      (some m) now h2
    simpa [run_background_task, wrapped_task_calls, run_task_calls, applyCalls,
      runningUpd, failedUpd] using h3
  · rfl

/-- C3 witness: the amended statement at a concrete pending task. -/
theorem c3_run_background_task_err_witness :
    AList.get? (run_background_task [("t1", pendingRec)] "t1"
          (.err "AI处理失败: boom") 9) "t1" =
        some
          { type := pendingRec.type
            status := "failed"
            progress := 0
            result := AList.update pendingRec.result [("progress", .s "任务开始执行...")]
            error := some "AI处理失败: boom"
            projectName := pendingRec.projectName
            moduleName := pendingRec.moduleName
            updatedAt := 9 }
      ∧ failedStatusCount (wrapped_task_calls (.err "AI处理失败: boom")) = 2 :=
  c3_run_background_task_err [("t1", pendingRec)] "t1" pendingRec
    "AI处理失败: boom" 9 rfl

/-- C4 (counterexample): `create_task` with `params = {"a": 1}` stores a
result in which the supplied key `"a"` is absent and the unsupplied key
`"progress"` is present, refuting the claim that the stored result equals
exactly the supplied params. -/
theorem c4_result_not_params_counterexample :
    ((create_task [] "t1" "generate_cases" (some [("a", .i 1)]) 0).toOption.bind
        (fun st => (get_task_info st "t1").map
          (fun r => (AList.get? r.result "a", AList.get? r.result "progress"))))
      = some (none, some (.s "任务已创建，等待处理...")) := by
  decide

/-- C4 (amended): for a fresh id, `create_task` with a params map stores a
row with status `pending` and progress `0`, whose result holds exactly the
three seeded entries: a creation progress message, and the `project_name` /
`module_name` values of `params` (empty-string default); an immediate
`get_task_info` returns that row. -/
theorem c4_create_task_seeds_result (store : Store) (task_id task_type : String)
    (p : RMap) (now : Nat) (hfresh : AList.get? store task_id = none) :
    create_task store task_id task_type (some p) now =
        .ok (store ++ [(task_id,
          { type := task_type
            status := "pending"
            progress := 0
            result := [("progress", .s "任务已创建，等待处理..."),
                       ("project_name", (AList.get? p "project_name").getD (.s "")),
                       ("module_name", (AList.get? p "module_name").getD (.s ""))]
            error := none
            projectName := (AList.get? p "project_name").getD (.s "")
            moduleName := (AList.get? p "module_name").getD (.s "")
            updatedAt := now })])
      ∧ get_task_info (store ++ [(task_id,
          { type := task_type
            status := "pending"
            progress := 0
            result := [("progress", .s "任务已创建，等待处理..."),
                       ("project_name", (AList.get? p "project_name").getD (.s "")),
                       ("module_name", (AList.get? p "module_name").getD (.s ""))]
            error := none
            projectName := (AList.get? p "project_name").getD (.s "")
            moduleName := (AList.get? p "module_name").getD (.s "")
            updatedAt := now })]) task_id =
        some
          { type := task_type
            status := "pending"
            progress := 0
            result := [("progress", .s "任务已创建，等待处理..."),
                       ("project_name", (AList.get? p "project_name").getD (.s "")),
                       ("module_name", (AList.get? p "module_name").getD (.s ""))]
            error := none
            projectName := (AList.get? p "project_name").getD (.s "")
            moduleName := (AList.get? p "module_name").getD (.s "")
            updatedAt := now } := by
  constructor
  · simp [create_task, paramsGet, hfresh]
  · exact AList.get?_append_fresh store task_id _ hfresh

/-- C4 witness: the amended statement at a concrete creation. -/
theorem c4_create_task_seeds_result_witness :
    create_task [] "t1" "generate_cases" (some [("project_name", .s "Acme")]) 0 =
        .ok [("t1",
          { type := "generate_cases"
            status := "pending"
            progress := 0
            result := [("progress", .s "任务已创建，等待处理..."),
                       ("project_name", .s "Acme"), ("module_name", .s "")]
            error := none
            projectName := .s "Acme"
            moduleName := .s ""
            updatedAt := 0 })]
      ∧ get_task_info [("t1",
          { type := "generate_cases"
            status := "pending"
            progress := 0
            result := [("progress", .s "任务已创建，等待处理..."),
                       ("project_name", .s "Acme"), ("module_name", .s "")]
            error := none
            projectName := .s "Acme"
            moduleName := .s ""
            updatedAt := 0 })] "t1" =
        some
          { type := "generate_cases"
            status := "pending"
            progress := 0
            result := [("progress", .s "任务已创建，等待处理..."),
                       ("project_name", .s "Acme"), ("module_name", .s "")]
            error := none
            projectName := .s "Acme"
            moduleName := .s ""
            updatedAt := 0 } := by
  have h := c4_create_task_seeds_result [] "t1" "generate_cases"
    [("project_name", .s "Acme")] 0 rfl
  have e1 : AList.get? [("project_name", Val.s "Acme")] "project_name"
      = some (.s "Acme") := rfl
  have e2 : AList.get? [("project_name", Val.s "Acme")] "module_name"
      = none := rfl
  simpa [e1, e2] using h

/-- C5: an `update_task` call supplying a partial result map performs a
field-level merge: every key named in the supplied map takes its supplied
value, and every other key of the stored result keeps its prior value. -/
theorem c5_update_task_merge_frame (store : Store) (task_id : String)
    (t : TaskRec) (u : RMap) (st : Option String) (pr : Option Int)
    (err : Option String) (now : Nat) (k : String)
    (h : AList.get? store task_id = some t) (hu : (AList.keys u).Nodup) :
    (AList.get? (update_task store task_id st pr (some u) err now) task_id).map
        (fun r => AList.get? r.result k)
      = some (match AList.get? u k with
              | some v => some v
              | none => AList.get? t.result k) := by
  rw [get?_update_task_self store task_id t st pr (some u) err now h]
  show some (AList.get? (AList.update t.result u) k)
      = some (match AList.get? u k with
              | some v => some v
              | none => AList.get? t.result k)
  rw [AList.get?_update t.result u hu k]
  cases AList.get? u k <;> rfl

/-- C5 witness: merging `{"b": 2}` into a stored result preserves the
previously recorded `project_name` tag. -/
theorem c5_update_task_merge_frame_witness :
    (AList.get? (update_task [("t1", pendingRec)] "t1" none none
          (some [("b", .i 2)]) none 5) "t1").map
        (fun r => AList.get? r.result "project_name")
      = some (some (.s "Acme")) := by
  have h := c5_update_task_merge_frame [("t1", pendingRec)] "t1" pendingRec
    [("b", .i 2)] none none none 5 "project_name" rfl (by decide)
  exact h

/-- C6: the retry wrapper with `max_retries = 3`, initial delay `d` and
backoff multiplier `b`, applied to an operation that raises a retryable
error on its first two invocations and succeeds on the third, returns the
success value having slept exactly twice, for `d` and then `d * b`, and
invoked the operation three times. -/
theorem c6_retry_two_sleeps {ε α : Type} (op : Nat → Except ε α)
    (retryable : ε → Bool) (d b : ℚ) (e0 e1 : ε) (v : α)
    (h0 : op 0 = .error e0) (h1 : op 1 = .error e1) (h2 : op 2 = .ok v)
    (hr0 : retryable e0 = true) (hr1 : retryable e1 = true) :
    retryCall op retryable 3 d b = (.ok v, [d, d * b], 3) := by
  simp [retryCall, retryRun, h0, h1, h2, hr0, hr1]

/-- C6 witness: a concrete operation failing twice then succeeding. -/
theorem c6_retry_two_sleeps_witness :
    retryCall (fun n => if n = 2 then (.ok 7 : Except String Nat)
        else .error "timeout") (fun _ => true) 3 1 2
      = (.ok 7, [1, 2], 3) := by
  have h := c6_retry_two_sleeps
    (fun n => if n = 2 then (.ok 7 : Except String Nat) else .error "timeout")
    (fun _ => true) 1 2 "timeout" "timeout" 7 rfl rfl rfl rfl rfl
  simpa using h

/-- C7: an operation whose first invocation raises an error outside the
retry allowlist propagates that error immediately: no sleeps and a single
invocation of the operation, for any `max_retries`. -/
theorem c7_retry_nonretryable {ε α : Type} (op : Nat → Except ε α)
    (retryable : ε → Bool) (maxRetries : Nat) (d b : ℚ) (e : ε)
    (h0 : op 0 = .error e) (hr : retryable e = false) :
    retryCall op retryable maxRetries d b = (.error e, [], 1) := by
  simp [retryCall, retryRun, h0, hr]

/-- C7 witness: a concrete non-retryable failure. -/
theorem c7_retry_nonretryable_witness :
    retryCall (fun _ => (.error "fatal" : Except String Nat))
        (fun e => e == "timeout") 3 1 2
      = (.error "fatal", [], 1) :=
  c7_retry_nonretryable (fun _ => .error "fatal") (fun e => e == "timeout")
    3 1 2 "fatal" rfl rfl

/-- C8: in a multi-image analysis (more than one image) whose secondary
aggregation step raises or yields an unusable response, the pipeline
returns the first partial result rather than discarding the completed work
or failing the whole analysis. -/
theorem c8_aggregation_fallback (imageCount : Nat) (first : RMap)
    (rest : List RMap) (o : SummaryOutcome)
    (hn : 1 < imageCount)
    (ho : o = .raises ∨ o = .noResponse ∨ o = .unparsable) :
    analyzeRequirementTail imageCount (.list (first :: rest)) true o
      = some first := by
  rcases ho with h | h | h <;> subst h <;>
    simp [analyzeRequirementTail, extractBase, applySummary, hn]

/-- C8 witness: two partial results, aggregation raising. -/
theorem c8_aggregation_fallback_witness :
    analyzeRequirementTail 2
        (.list [[("整体功能架构", .s "x")], [("核心业务流程", .s "y")]])
        true .raises
      = some [("整体功能架构", .s "x")] :=
  c8_aggregation_fallback 2 [("整体功能架构", .s "x")]
    [[("核心业务流程", .s "y")]] .raises (by decide) (Or.inl rfl)

/-- C10: calling `create_task` with `params = None` (the declared default)
raises `AttributeError` when reading `params.get`, producing no task
record; when `params` is a map, the `AttributeError` branch is
unreachable. -/
theorem c10_create_task_params_none (store : Store)
    (task_id task_type : String) (now : Nat) :
    create_task store task_id task_type none now
        = .error (.attributeError "NoneType object has no attribute get")
      ∧ ∀ (p : RMap) (msg : String),
          create_task store task_id task_type (some p) now
            ≠ .error (.attributeError msg) := by
  constructor
  · rfl
  · intro p msg hcontra
    cases hAg : AList.get? store task_id with
    | none => simp [create_task, paramsGet, hAg] at hcontra
    | some tsk => simp [create_task, paramsGet, hAg] at hcontra

/-- C10 witness: the statement at a concrete call. -/
theorem c10_create_task_params_none_witness :
    create_task [] "t1" "generate_cases" none 0
      = .error (.attributeError "NoneType object has no attribute get") :=
  (c10_create_task_params_none [] "t1" "generate_cases" 0).1

end TestBoom
